import Mathlib

/-!
Verification of the Anti-Recency prop-analysis engine and the continuous
learning feedback loop of the sports-betting-model repository.

Shallow embedding conventions:
* Python/numpy floating point values are modelled as exact rationals (`ℚ`).
* numpy's NaN (which arises only in `np.std(arr, ddof=1)` for arrays of
  length ≤ 1, and is never produced elsewhere on the reachable inputs) is
  modelled by `Option`: `none` is NaN.  IEEE comparisons with NaN are false,
  which the embedding reproduces at the single place the source compares
  the standard deviation (`baseline.std_dev > 0`).
* Python exceptions are modelled with `Except`.
* The relational store used by `continuous_learning.py` is modelled as an
  explicit record of tables; each method is a state transformer.
-/

/-- Error kinds raised by the analysis engine.
`indexError` is the `IndexError` numpy's `np.percentile` raises on an empty
array; `insufficientDataError` is the error the specification's taxonomy
prescribes for an empty series (no such exception class exists anywhere in
the source — the constructor exists so that the specified behaviour can be
stated and compared against the implemented one). -/
inductive ErrKind where
  | indexError
  | insufficientDataError
deriving DecidableEq, Repr

/-- `np.mean` over an exact-rational list: sum divided by length.
(For an empty list numpy returns NaN with a warning; the embedding's junk
value `0/0 = 0` is only ever used on nonempty slices — every theorem that
depends on a mean carries the nonemptiness facts needed to stay on the
NaN-free path of the source.) -/
def listMean (l : List ℚ) : ℚ := l.sum / l.length

/-- Python's tail slice `l[-k:]` for `k > 0`: the last `k` elements
(the whole list when it has fewer than `k` elements). -/
def lastN (l : List ℚ) (k : ℕ) : List ℚ := l.drop (l.length - k)

/-- numpy's ascending sort, modelled by insertion sort (any correct sort:
only the sorted sequence matters). -/
def sortVals (l : List ℚ) : List ℚ := List.insertionSort (· ≤ ·) l

/-- Zero-padded list indexing (the default is never reached on the index
range used by `percentile`). -/
def nthD : List ℚ → ℕ → ℚ
  | [], _ => 0
  | a :: _, 0 => a
  | _ :: l, n + 1 => nthD l n

/-- `np.percentile(arr, q)` with the default linear-interpolation method,
for a whole-number percent `q` (the source only uses 10, 50 and 90) and a
nonempty array: on the ascending sort `s` of the data, the virtual index is
`h = (n-1)·q/100`; the result interpolates between `s[⌊h⌋]` and `s[⌊h⌋+1]`.
`t = (n-1)·q` is `h` measured in hundredths, so `⌊h⌋ = t / 100` (natural
division) and the fractional part is `t/100 - ⌊h⌋`. -/
def percentile (l : List ℚ) (q : ℕ) : ℚ :=
  let s := sortVals l
  let n := s.length
  let t := (n - 1) * q
  let lo := t / 100
  let frac : ℚ := (t : ℚ) / 100 - (lo : ℚ)
  nthD s lo + frac * (nthD s (lo + 1) - nthD s lo)

/-- `np.median`, which numpy computes exactly as the 50th percentile with
linear interpolation (midpoint of the two central elements for even length). -/
def listMedian (l : List ℚ) : ℚ := percentile l 50

/-- The sample variance `Σ (x - mean)² / (n - 1)` — the square of
`np.std(arr, ddof=1)` (anti_recency_engine.py line 140).  For `n ≤ 1`
numpy's quotient is `0/0` (n = 1) or propagates the NaN mean (n = 0) and the
result is NaN, modelled as `none`. -/
def sampleVar (values : List ℚ) : Option ℚ :=
  if 2 ≤ values.length then
    some ((values.map (fun x => (x - listMean values) ^ 2)).sum /
      ((values.length : ℚ) - 1))
  else none

/-- The sample standard deviation `np.std(arr, ddof=1)` itself: the square
root of `sampleVar`, NaN (`none`) when the variance is NaN. -/
noncomputable def stdDevOf (values : List ℚ) : Option ℝ :=
  (sampleVar values).map (fun v : ℚ => Real.sqrt ((v : ℝ)))

/-- `ConfidenceLevel` enum (anti_recency_engine.py lines 22-26). -/
inductive ConfidenceLevel where
  | high
  | medium
  | low
  | insufficient
deriving DecidableEq, Repr

/-- The `.value` string of each `ConfidenceLevel` member. -/
def ConfidenceLevel.value : ConfidenceLevel → String
  | .high => "high"
  | .medium => "medium"
  | .low => "low"
  | .insufficient => "insufficient"

/-- `BaselineData` (anti_recency_engine.py lines 29-37).  The source stores
the sample standard deviation in the field `std_dev`; to keep the record
decidable the embedding stores its square `std_dev_sq = sampleVar values`
(NaN as `none`); the standard deviation itself is recovered by
`BaselineData.std_dev` below, and the source's one comparison on it
(`baseline.std_dev > 0`) is equivalent to `0 < v` on `std_dev_sq = some v`. -/
structure BaselineData where
  mean : ℚ
  median : ℚ
  std_dev_sq : Option ℚ
  floor : ℚ
  ceiling : ℚ
  sample_size : ℕ
deriving DecidableEq, Repr

/-- The `std_dev` field of the source's `BaselineData`: square root of the
stored sample variance, NaN (`none`) for series of length ≤ 1. -/
noncomputable def BaselineData.std_dev (b : BaselineData) : Option ℝ :=
  b.std_dev_sq.map (fun v : ℚ => Real.sqrt ((v : ℝ)))

/-- `AntiRecencyEngine._calculate_baseline` (anti_recency_engine.py lines
134-144).  On an empty list `np.mean`/`np.median`/`np.std` return NaN with a
RuntimeWarning but do not raise; the subsequent `np.percentile(arr, 10)`
raises `IndexError`, discarding those NaN intermediates, so the whole call
fails with `IndexError`. -/
def calculate_baseline (values : List ℚ) : Except ErrKind BaselineData :=
  if values = [] then .error .indexError
  else .ok {
    mean := listMean values
    median := listMedian values
    std_dev_sq := sampleVar values
    floor := percentile values 10
    ceiling := percentile values 90
    sample_size := values.length }

/-- Engine configuration (anti_recency_engine.py lines 63-67): the
constructor takes the two weights (defaults 0.55 and 0.13) and fixes
`recent_games = 5`, `trend_games = 3`. -/
structure AntiRecencyEngine where
  season_baseline_weight : ℚ := 0.55
  recent_form_weight : ℚ := 0.13
  recent_games : ℕ := 5
  trend_games : ℕ := 3
deriving DecidableEq, Repr

/-- `recent_mean = np.mean(game_values[-recent_games:])`
(anti_recency_engine.py line 81). -/
def recentMean (values : List ℚ) (k : ℕ) : ℚ := listMean (lastN values k)

/-- The source's outlier test (anti_recency_engine.py lines 85-86):
`z_score = abs((recent_mean - baseline.mean) / baseline.std_dev) if
baseline.std_dev > 0 else 0` and `is_outlier = z_score > 2.0`, written as an
exact-arithmetic decidable predicate.  With `σ = √v` (`v` the sample
variance), `σ > 0` is `0 < v` — and false when `σ` is NaN (`none`) exactly as
IEEE `NaN > 0` is false — and, given `σ > 0`,
`|recent_mean − mean| / σ > 2` is `(recent_mean − mean)² > 4·v`.  The
theorem `outlier_iff_zscore_and_regress` proves this Boolean equivalent to
the literal real-valued formulation `zScore`. -/
def isOutlier (values : List ℚ) (recent_window : ℕ) : Bool :=
  match sampleVar values with
  | some v =>
      decide (0 < v) &&
      decide (4 * v < (recentMean values recent_window - listMean values) ^ 2)
  | none => false

open Classical in
/-- The z-score of anti_recency_engine.py line 85, literally:
`abs((recent_mean - baseline.mean) / baseline.std_dev)` when
`baseline.std_dev > 0`, else `0`.  A NaN standard deviation (`none`) fails
the IEEE comparison `NaN > 0`, so the `else 0` branch is taken. -/
noncomputable def zScore (values : List ℚ) (recent_window : ℕ) : ℝ :=
  match stdDevOf values with
  | some s =>
      if 0 < s then
        |((recentMean values recent_window : ℚ) : ℝ) - ((listMean values : ℚ) : ℝ)| / s
      else 0
  | none => 0

/-- `adjusted_recent` (anti_recency_engine.py lines 89-92): the baseline
mean when the recent window is an outlier (full regression to the mean),
otherwise the recent mean. -/
def adjustedRecent (e : AntiRecencyEngine) (values : List ℚ) : ℚ :=
  if isOutlier values e.recent_games then listMean values
  else recentMean values e.recent_games

/-- `trend_mean = np.mean(game_values[-trend_games:])`
(anti_recency_engine.py line 95). -/
def trendMean (e : AntiRecencyEngine) (values : List ℚ) : ℚ :=
  listMean (lastN values e.trend_games)

/-- `AntiRecencyEngine._assess_confidence` (anti_recency_engine.py lines
146-154); the `edge` argument is `abs(edge)` at the one call site. -/
def assess_confidence (sample_size : ℕ) (edge : ℚ) (is_outlier : Bool) : String :=
  if sample_size < 5 then ConfidenceLevel.insufficient.value
  else if is_outlier = true ∨ edge < 3 then ConfidenceLevel.low.value
  else if 10 ≤ sample_size ∧ 8 < edge then ConfidenceLevel.high.value
  else ConfidenceLevel.medium.value

/-- `WeightedProjection` (anti_recency_engine.py lines 40-57);
`weights_applied` is the insertion-ordered dict, modelled as an association
list. -/
structure WeightedProjection where
  player_id : ℤ
  prop_type : String
  prop_line : ℚ
  season_baseline : ℚ
  final_projection : ℚ
  edge_percentage : ℚ
  confidence_level : String
  recommended_play : Option String
  weights_applied : List (String × ℚ) := []
  historical_matchup : Option ℚ := none
  defensive_tier : Option ℚ := none
  recent_form : Option ℚ := none
  trend : Option ℚ := none
  floor : Option ℚ := none
  ceiling : Option ℚ := none
deriving DecidableEq, Repr

/-- `AntiRecencyEngine.analyze_prop` (anti_recency_engine.py lines 69-132).
The source also computes `recent_std = np.std(game_values)` (line 82) and
`trend_direction` (line 96); both are dead values never read again, the
first omitted here because materialising its square root is noncomputable,
the second kept as a discarded binding. -/
def analyze_prop (e : AntiRecencyEngine) (player_id : ℤ) (prop_type : String)
    (prop_line : ℚ) (game_values : List ℚ) (opponent_tier : ℤ) :
    Except ErrKind WeightedProjection :=
  match calculate_baseline game_values with
  | .error err => .error err
  | .ok baseline =>
    let recent_mean := recentMean game_values e.recent_games
    let is_outlier := isOutlier game_values e.recent_games
    let adjusted_recent := if is_outlier then baseline.mean else recent_mean
    let trend_mean := trendMean e game_values
    let _trend_direction : ℤ := if baseline.mean < trend_mean then 1 else -1
    let final_projection :=
      baseline.mean * e.season_baseline_weight +
      adjusted_recent * e.recent_form_weight +
      trend_mean * 0.05 +
      baseline.mean * (1 - e.season_baseline_weight - e.recent_form_weight - 0.05)
    let edge := if 0 < prop_line then (final_projection - prop_line) / prop_line * 100 else 0
    let recommended_play : Option String :=
      if 5 < |edge| then (if 0 < edge then some "OVER" else some "UNDER") else none
    let confidence_level := assess_confidence game_values.length |edge| is_outlier
    .ok {
      player_id := player_id
      prop_type := prop_type
      prop_line := prop_line
      season_baseline := baseline.mean
      final_projection := final_projection
      edge_percentage := edge
      confidence_level := confidence_level
      recommended_play := recommended_play
      floor := some baseline.floor
      ceiling := some baseline.ceiling
      weights_applied := [("baseline", e.season_baseline_weight),
                          ("recent", e.recent_form_weight),
                          ("trend", 0.05)] }

/-! ## Continuous learning system (continuous_learning.py)

The methods of `ContinuousLearningSystem` run SQL against a PostgreSQL
store whose schema and triggers live in `database/migrations/*.sql`, files
referenced by `run_migration.py` but not part of the sources available
here.  The store is modelled as an explicit record of tables; the parts
the schema decides (uniqueness of a verification per prediction, and the
insert trigger that fills the derived columns of `prediction_results`) are
modelled from the spec and marked as such on their definitions. -/

/-- A row of the `predictions` table, restricted to the columns the
verification path reads. -/
structure PredictionRow where
  prediction_id : ℕ
  sport : String
  predicted_value : ℚ
deriving DecidableEq, Repr

/-- A row of the `prediction_results` table, as returned by the INSERT's
`RETURNING result_id, prediction_error, error_percentage, is_accurate`. -/
structure ResultRow where
  result_id : ℕ
  prediction_id : ℕ
  actual_value : ℚ
  data_source : String
  prediction_error : ℚ
  error_percentage : ℚ
  is_accurate : Bool
deriving DecidableEq, Repr

/-- A row of `model_performance_metrics`, restricted to the columns
`_check_retraining_needed` reads; `period_start` is modelled as a natural
timestamp. -/
structure MetricRow where
  sport : String
  time_period : String
  period_start : ℕ
  total_predictions : ℕ
  accuracy_rate : ℚ
deriving DecidableEq, Repr

/-- A row of `model_retraining_triggers`. -/
structure TriggerRow where
  trigger_id : ℕ
  sport : String
  reason : String
  accuracy_before_trigger : ℚ
deriving DecidableEq, Repr

/-- A row of `continuous_learning_log`; `details` models the JSON dict as
an association list. -/
structure EventRow where
  sport : String
  event_type : String
  details : List (String × String)
deriving DecidableEq, Repr

/-- The persistent store: one field per table, plus the sequences backing
the generated `result_id`/`trigger_id` columns. -/
structure LearningDB where
  predictions : List PredictionRow := []
  prediction_results : List ResultRow := []
  continuous_learning_log : List EventRow := []
  model_performance_metrics : List MetricRow := []
  model_retraining_triggers : List TriggerRow := []
  next_result_id : ℕ := 0
  next_trigger_id : ℕ := 0
deriving DecidableEq, Repr

/-- `ContinuousLearningSystem.__init__` (continuous_learning.py lines
21-24): retrain below 70% accuracy, evaluate only at ≥ 50 predictions. -/
structure ContinuousLearningSystem where
  accuracy_threshold : ℚ := 70.0
  min_predictions : ℕ := 50
deriving DecidableEq, Repr

/-- `_log_learning_event` (continuous_learning.py lines 197-210): insert
one row into `continuous_learning_log`. -/
def logLearningEvent (db : LearningDB) (sport event_type : String)
    (details : List (String × String)) : LearningDB :=
  { db with continuous_learning_log :=
      db.continuous_learning_log ++ [⟨sport, event_type, details⟩] }

/-- The query of `_check_retraining_needed` (continuous_learning.py lines
218-227): the latest `'daily'` row of `model_performance_metrics` for the
sport (`ORDER BY period_start DESC LIMIT 1`). -/
def latestDailyMetric (db : LearningDB) (sport : String) : Option MetricRow :=
  (List.insertionSort (fun a b => b.period_start ≤ a.period_start)
    (db.model_performance_metrics.filter
      (fun m => m.sport == sport && m.time_period == "daily"))).head?

/-- `_check_retraining_needed` (continuous_learning.py lines 212-259): if a
latest daily metric exists with `total_predictions >= min_predictions` and
`accuracy_rate < accuracy_threshold`, insert one row into
`model_retraining_triggers` carrying the observed accuracy and the reason
string `f"Accuracy dropped to {accuracy}%"`, then append a
`retrain_triggered` learning event; otherwise change nothing. -/
def checkRetrainingNeeded (sys : ContinuousLearningSystem) (db : LearningDB)
    (sport : String) : LearningDB :=
  match latestDailyMetric db sport with
  | none => db
  | some m =>
    if sys.min_predictions ≤ m.total_predictions then
      let accuracy := m.accuracy_rate
      if accuracy < sys.accuracy_threshold then
        let trigger : TriggerRow :=
          ⟨db.next_trigger_id, sport,
           "Accuracy dropped to " ++ toString accuracy ++ "%", accuracy⟩
        let db1 := { db with
          model_retraining_triggers := db.model_retraining_triggers ++ [trigger]
          next_trigger_id := db.next_trigger_id + 1 }
        logLearningEvent db1 sport "retrain_triggered"
          [("trigger_id", toString trigger.trigger_id),
           ("accuracy", toString accuracy)]
      else db
    else db

/-- Errors of the verification path.  `notFound` is an unknown prediction
id (the insert's foreign key has nothing to reference); `alreadyVerified`
is the uniqueness violation on a second verification. -/
inductive VerifyErr where
  | notFound
  | alreadyVerified
deriving DecidableEq, Repr

/-- Modelled from the spec: the `ε` of
`errorPercent = |error| / max(|actual|, ε) × 100` (§3 VerificationResult),
a tiny guard against division by zero; its exact value is not fixed by the
spec and no claim depends on it. -/
def verifyEps : ℚ := 1 / 1000000

/-- `verify_result` (continuous_learning.py lines 79-124).  The INSERT into
`prediction_results` and its derived columns are decided by the migration
schema, which is not among the sources; those parts are modelled from the
spec: the table enforces uniqueness of `prediction_id` (§4.4, §5 — a second
verification fails and the transaction rolls back, leaving the store as it
was), a foreign key makes an unknown id fail, and the insert trigger
computes `error = actual − predicted`,
`errorPercent = |error| / max(|actual|, ε) × 100` and
`isAccurate = errorPercent ≤ 10` (§3, §4.4).  On success the code then
appends a `result_verified` learning event and runs
`_check_retraining_needed` for the prediction's sport (source lines
104-114). -/
def verify_result (sys : ContinuousLearningSystem) (db : LearningDB)
    (prediction_id : ℕ) (actual_value : ℚ) (data_source : String) :
    Except VerifyErr ResultRow × LearningDB :=
  match db.predictions.find? (fun p => p.prediction_id == prediction_id) with
  | none => (.error .notFound, db)
  | some pred =>
    if db.prediction_results.any (fun r => r.prediction_id == prediction_id) then
      (.error .alreadyVerified, db)
    else
      let err := actual_value - pred.predicted_value
      let errPct := |err| / max |actual_value| verifyEps * 100
      let row : ResultRow :=
        ⟨db.next_result_id, prediction_id, actual_value, data_source,
         err, errPct, decide (errPct ≤ 10)⟩
      let db1 := { db with
        prediction_results := db.prediction_results ++ [row]
        next_result_id := db.next_result_id + 1 }
      let db2 := logLearningEvent db1 pred.sport "result_verified"
        [("prediction_id", toString prediction_id),
         ("accurate", toString row.is_accurate)]
      (.ok row, checkRetrainingNeeded sys db2 pred.sport)

/-! ## Batch analysis route (workflow_routes.py) -/

/-- The module-level engine of workflow_routes.py lines 21-24. -/
def analysis_engine : AntiRecencyEngine :=
  { season_baseline_weight := 0.55, recent_form_weight := 0.13 }

/-- One element of the `props` array of a `/batch-analysis` request;
`opponent_tier` defaults to 3 (`prop.get('opponent_tier', 3)`). -/
structure PropRequest where
  player_id : ℤ
  prop_type : String
  prop_line : ℚ
  game_values : List ℚ
  opponent_tier : ℤ := 3
deriving DecidableEq, Repr

/-- Python's `round` (banker's rounding, half to even) on an exact
rational, to integral precision. -/
def roundHalfEven (x : ℚ) : ℤ :=
  let f : ℤ := Int.fdiv x.num x.den
  let r : ℚ := x - (f : ℚ)
  if r < 1 / 2 then f
  else if 1 / 2 < r then f + 1
  else if f % 2 = 0 then f else f + 1

/-- `round(x, 2)` on the exact-rational idealisation of a Python float. -/
def round2 (x : ℚ) : ℚ := (roundHalfEven (x * 100) : ℚ) / 100

/-- The per-item dict `batch_analysis` appends to `results`
(workflow_routes.py lines 123-130). -/
structure BatchItemResult where
  player_id : ℤ
  prop_type : String
  final_projection : ℚ
  edge_percentage : ℚ
  confidence_level : String
  recommended_play : Option String
deriving DecidableEq, Repr

/-- The two failure responses of the `/batch-analysis` endpoint: the 400
`'No props provided'` guard, and the single 500 error payload produced when
any exception escapes the loop (workflow_routes.py lines 111-112 and
134-136). -/
inductive BatchError where
  | noProps
  | analysisError (err : ErrKind)
deriving DecidableEq, Repr

/-- The `for prop in props` loop of `batch_analysis` (workflow_routes.py
lines 114-130).  The loop body runs inside the route's single `try`: the
first item whose analysis raises aborts the loop, the accumulated `results`
list is discarded, and the route returns one error payload. -/
def runBatchItems : List PropRequest → Except BatchError (List BatchItemResult)
  | [] => .ok []
  | q :: rest =>
    match analyze_prop analysis_engine q.player_id q.prop_type q.prop_line
        q.game_values q.opponent_tier with
    | .error er => .error (.analysisError er)
    | .ok r =>
      match runBatchItems rest with
      | .error er => .error er
      | .ok rs => .ok ({
          player_id := r.player_id
          prop_type := r.prop_type
          final_projection := round2 r.final_projection
          edge_percentage := round2 r.edge_percentage
          confidence_level := r.confidence_level
          recommended_play := r.recommended_play } :: rs)

/-- `batch_analysis` (workflow_routes.py lines 95-136): empty `props` gets
the 400 guard, otherwise the loop runs and the whole request yields either
one error or one result dict per prop. -/
def batch_analysis (props : List PropRequest) : Except BatchError (List BatchItemResult) :=
  if props = [] then .error .noProps else runBatchItems props

/-! ## Named forms of the values `analyze_prop` binds, and sample inputs

These give names to the `let`-bound values of `analyze_prop`'s success
branch so that theorems can speak about them; `analyze_prop_eq` below
proves that `analyze_prop` on a nonempty series returns exactly the record
built from them. -/

/-- The weighted synthesis (anti_recency_engine.py lines 99-104):
baseline, adjusted recent and trend terms, plus the remainder weight
`1 − baselineWeight − recentWeight − 0.05` applied to the baseline mean. -/
def finalProjection (e : AntiRecencyEngine) (values : List ℚ) : ℚ :=
  listMean values * e.season_baseline_weight +
  adjustedRecent e values * e.recent_form_weight +
  trendMean e values * 0.05 +
  listMean values * (1 - e.season_baseline_weight - e.recent_form_weight - 0.05)

/-- The edge (anti_recency_engine.py line 107):
`(final_projection − prop_line) / prop_line × 100` when `prop_line > 0`,
else `0`. -/
def edgePercent (e : AntiRecencyEngine) (prop_line : ℚ) (values : List ℚ) : ℚ :=
  if 0 < prop_line then (finalProjection e values - prop_line) / prop_line * 100
  else 0

/-- The recommendation (anti_recency_engine.py lines 110-112): `OVER` or
`UNDER` only when `abs(edge) > 5`, by the sign of the edge. -/
def recommendedPlay (edge : ℚ) : Option String :=
  if 5 < |edge| then (if 0 < edge then some "OVER" else some "UNDER") else none

/-- The projection `analyze_prop` returns for the sample request
`(player 1, "pts", line 20, values [10,10,10,10,10], tier 3)` with the
routes engine: a constant series is never an outlier, the projection equals
the constant 10, and the edge against the line 20 is −50%. -/
def sampleProjection : WeightedProjection := {
  player_id := 1
  prop_type := "pts"
  prop_line := 20
  season_baseline := 10
  final_projection := 10
  edge_percentage := -50
  confidence_level := "medium"
  recommended_play := some "UNDER"
  weights_applied := [("baseline", 0.55), ("recent", 0.13), ("trend", 0.05)]
  floor := some 10
  ceiling := some 10 }

/-- A batch item whose analysis succeeds (the sample request above). -/
def goodProp : PropRequest :=
  { player_id := 1, prop_type := "pts", prop_line := 20,
    game_values := [10, 10, 10, 10, 10] }

/-- A batch item whose analysis raises: its `game_values` list is empty, so
`np.percentile` raises `IndexError` inside `_calculate_baseline`. -/
def badProp : PropRequest :=
  { player_id := 2, prop_type := "asts", prop_line := 5, game_values := [] }

/-- A store holding one unverified prediction (player record id 1 for the
NBA with predicted value 25) and nothing else. -/
def dbSample : LearningDB := { predictions := [⟨1, "NBA", 25⟩] }

/-- A store whose latest (only) daily NBA metric has 50 predictions at
69.9% accuracy — at the evaluation threshold, below the accuracy bar. -/
def dbTrigger : LearningDB :=
  { model_performance_metrics := [⟨"NBA", "daily", 1, 50, 69.9⟩] }

/-- A store whose latest (only) daily NBA metric has 49 predictions at 60%
accuracy — below the evaluation threshold. -/
def dbNoTrigger : LearningDB :=
  { model_performance_metrics := [⟨"NBA", "daily", 1, 49, 60⟩] }

/-! ## Theorems -/

/-- On a nonempty series `_calculate_baseline` succeeds with the statistics
of the whole series. -/
theorem calculate_baseline_eq (values : List ℚ) (h : values ≠ []) :
    calculate_baseline values = .ok {
      mean := listMean values
      median := listMedian values
      std_dev_sq := sampleVar values
      floor := percentile values 10
      ceiling := percentile values 90
      sample_size := values.length } := by
  simp [calculate_baseline, h]

/-- `analyze_prop` on a nonempty series succeeds and returns exactly the
record assembled from the named intermediate values. -/
theorem analyze_prop_eq (e : AntiRecencyEngine) (pid : ℤ) (pt : String)
    (line : ℚ) (vs : List ℚ) (t : ℤ) (h : vs ≠ []) :
    analyze_prop e pid pt line vs t = .ok {
      player_id := pid
      prop_type := pt
      prop_line := line
      season_baseline := listMean vs
      final_projection := finalProjection e vs
      edge_percentage := edgePercent e line vs
      confidence_level :=
        assess_confidence vs.length |edgePercent e line vs| (isOutlier vs e.recent_games)
      recommended_play := recommendedPlay (edgePercent e line vs)
      weights_applied := [("baseline", e.season_baseline_weight),
                          ("recent", e.recent_form_weight), ("trend", 0.05)]
      floor := some (percentile vs 10)
      ceiling := some (percentile vs 90) } := by
  unfold analyze_prop
  rw [calculate_baseline_eq vs h]
  simp only [finalProjection, edgePercent, recommendedPlay, adjustedRecent, trendMean,
    recentMean]

/-- `analyze_prop` fails on (and only on) an empty series. -/
theorem analyze_prop_ne_nil (e : AntiRecencyEngine) (pid : ℤ) (pt : String)
    (line : ℚ) (vs : List ℚ) (t : ℤ) (p : WeightedProjection)
    (h : analyze_prop e pid pt line vs t = .ok p) : vs ≠ [] := by
  intro hnil
  subst hnil
  simp [analyze_prop, calculate_baseline] at h

/-- Evaluation of the sample request: the concrete record is as stated in
`sampleProjection`. -/
theorem analyze_sample :
    analyze_prop analysis_engine 1 "pts" 20 [10, 10, 10, 10, 10] 3 = .ok sampleProjection := by
  rw [analyze_prop_eq analysis_engine 1 "pts" 20 [10, 10, 10, 10, 10] 3 (by simp)]
  norm_num [sampleProjection, finalProjection, edgePercent, recommendedPlay, adjustedRecent,
    trendMean, recentMean, isOutlier, sampleVar, listMean, lastN, assess_confidence,
    ConfidenceLevel.value, percentile, listMedian, sortVals, nthD, List.insertionSort,
    List.orderedInsert, analysis_engine]

/-- The sample variance is nonnegative whenever it is defined. -/
theorem sampleVar_nonneg (values : List ℚ) (v : ℚ) (h : sampleVar values = some v) :
    0 ≤ v := by
  unfold sampleVar at h
  by_cases h2 : 2 ≤ values.length
  · rw [if_pos h2, Option.some.injEq] at h
    have hsum : 0 ≤ (values.map (fun x => (x - listMean values) ^ 2)).sum := by
      apply List.sum_nonneg
      intro x hx
      simp only [List.mem_map] at hx
      obtain ⟨y, _, rfl⟩ := hx
      positivity
    have hden : (0 : ℚ) < (values.length : ℚ) - 1 := by
      have h2r : (2 : ℚ) ≤ (values.length : ℚ) := by exact_mod_cast h2
      linarith
    exact h ▸ div_nonneg hsum hden.le
  · rw [if_neg h2] at h
    exact absurd h (by simp)

/-- The square-root form of the outlier test versus its squared form. -/
theorem abs_div_sqrt_gt_two_iff (d v : ℝ) (hv : 0 < v) :
    |d| / Real.sqrt v > 2 ↔ 4 * v < d ^ 2 := by
  rw [gt_iff_lt, lt_div_iff₀ (Real.sqrt_pos.mpr hv)]
  constructor
  · intro h
    nlinarith [Real.sq_sqrt hv.le, Real.sqrt_pos.mpr hv, abs_nonneg d, sq_abs d]
  · intro h
    nlinarith [Real.sq_sqrt hv.le, Real.sqrt_pos.mpr hv, abs_nonneg d, sq_abs d]

/-- **C1.**  For every value series and recent window `k > 0`, `is_outlier`
holds iff the z-score `|mean(last k) − baseline.mean| / baseline.stdDev`
(defined as 0 when the standard deviation is 0 — or NaN, for a
single-element series) exceeds 2.0; and the adjusted-recent value is the
baseline mean when the window is an outlier and the recent mean
otherwise. -/
theorem outlier_iff_zscore_and_regress (e : AntiRecencyEngine) (values : List ℚ)
    (hk : 0 < e.recent_games) (hv : values ≠ []) :
    (isOutlier values e.recent_games = true ↔ zScore values e.recent_games > 2)
    ∧ ((stdDevOf values = some 0 ∨ stdDevOf values = none) →
        isOutlier values e.recent_games = false)
    ∧ (isOutlier values e.recent_games = true → adjustedRecent e values = listMean values)
    ∧ (isOutlier values e.recent_games = false →
        adjustedRecent e values = recentMean values e.recent_games) := by
  refine ⟨?_, ?_, ?_, ?_⟩
  · cases hsv : sampleVar values with
    | none =>
        simp only [isOutlier, zScore, stdDevOf, hsv, Option.map_none']
        norm_num
    | some v =>
        have hv0 := sampleVar_nonneg values v hsv
        rcases hv0.lt_or_eq with hpos | hzero
        · have hcast : (0 : ℝ) < (v : ℚ) := by exact_mod_cast hpos
          have hs : 0 < Real.sqrt (v : ℝ) := Real.sqrt_pos.mpr hcast
          simp only [isOutlier, zScore, stdDevOf, hsv, Option.map_some', if_pos hs,
            Bool.and_eq_true, decide_eq_true_eq]
          have habs : |((recentMean values e.recent_games : ℚ) : ℝ) - ((listMean values : ℚ) : ℝ)|
              = |(((recentMean values e.recent_games - listMean values : ℚ)) : ℝ)| := by
            push_cast
            ring_nf
          rw [habs, abs_div_sqrt_gt_two_iff _ _ hcast]
          constructor
          · rintro ⟨-, h4⟩
            exact_mod_cast h4
          · intro h4
            exact ⟨hpos, by exact_mod_cast h4⟩
        · subst hzero
          simp only [isOutlier, zScore, stdDevOf, hsv, Option.map_some']
          rw [if_neg (by simp)]
          norm_num
  · intro hcase
    rcases hcase with hzero | hnan
    · obtain ⟨v, hsv, hsqrt⟩ := Option.map_eq_some'.mp hzero
      have hv0 := sampleVar_nonneg values v hsv
      have hle : ((v : ℝ)) ≤ 0 := Real.sqrt_eq_zero'.mp hsqrt
      have hveq : v = 0 := le_antisymm (by exact_mod_cast hle) hv0
      subst hveq
      simp [isOutlier, hsv]
    · have hsv : sampleVar values = none := Option.map_eq_none'.mp hnan
      simp [isOutlier, hsv]
  · intro h
    simp [adjustedRecent, h]
  · intro h
    simp [adjustedRecent, h]

/-- Witness for C1 at the spec's own example series with the default
window. -/
theorem outlier_iff_zscore_and_regress_witness :
    0 < AntiRecencyEngine.recent_games {} ∧ ([10, 12, 9, 11, 50] : List ℚ) ≠ [] ∧
      (isOutlier [10, 12, 9, 11, 50] (AntiRecencyEngine.recent_games {}) = true ↔
        zScore [10, 12, 9, 11, 50] (AntiRecencyEngine.recent_games {}) > 2) :=
  ⟨by decide, by simp,
    (outlier_iff_zscore_and_regress {} [10, 12, 9, 11, 50] (by decide) (by simp)).1⟩

/-- **C2.**  The confidence level is decided by the precedence ladder:
`sampleSize < 5 → INSUFFICIENT`, else `isOutlier ∨ |edge| < 3 → LOW`, else
`sampleSize ≥ 10 ∧ |edge| > 8 → HIGH`, else `MEDIUM`; consequently the
result is never `HIGH` when `sampleSize < 10` or `|edge| ≤ 8`. -/
theorem confidence_ladder (e : AntiRecencyEngine) (pid : ℤ) (pt : String)
    (line : ℚ) (vs : List ℚ) (t : ℤ) (p : WeightedProjection)
    (h : analyze_prop e pid pt line vs t = .ok p) :
    p.confidence_level =
      (if vs.length < 5 then "insufficient"
       else if isOutlier vs e.recent_games = true ∨ |p.edge_percentage| < 3 then "low"
       else if 10 ≤ vs.length ∧ 8 < |p.edge_percentage| then "high"
       else "medium")
    ∧ ((vs.length < 10 ∨ |p.edge_percentage| ≤ 8) → p.confidence_level ≠ "high") := by
  have hne := analyze_prop_ne_nil e pid pt line vs t p h
  rw [analyze_prop_eq e pid pt line vs t hne, Except.ok.injEq] at h
  subst h
  simp only [assess_confidence, ConfidenceLevel.value]
  refine ⟨trivial, ?_⟩
  intro hle
  split_ifs with h1 h2 h3
  · simp
  · simp
  · rcases hle with hlen | hedge
    · omega
    · exact absurd h3.2 (not_lt.mpr hedge)
  · simp

/-- Witness for C2 at the sample request. -/
theorem confidence_ladder_witness :
    analyze_prop analysis_engine 1 "pts" 20 [10, 10, 10, 10, 10] 3 = .ok sampleProjection ∧
      (([10, 10, 10, 10, 10] : List ℚ).length < 10 ∨ |sampleProjection.edge_percentage| ≤ 8 →
        sampleProjection.confidence_level ≠ "high") :=
  ⟨analyze_sample,
    (confidence_ladder analysis_engine 1 "pts" 20 [10, 10, 10, 10, 10] 3
      sampleProjection analyze_sample).2⟩

/-- The dead-zone shape of the recommendation as a function of the edge. -/
theorem recommendedPlay_spec (q : ℚ) :
    (recommendedPlay q = some "OVER" ↔ 5 < q)
    ∧ (recommendedPlay q = some "UNDER" ↔ q < -5)
    ∧ (recommendedPlay q = none ↔ (-5 ≤ q ∧ q ≤ 5)) := by
  unfold recommendedPlay
  by_cases h5 : 5 < |q|
  · rcases lt_abs.mp h5 with hq | hq
    · have h0 : 0 < q := by linarith
      rw [if_pos h5, if_pos h0]
      refine ⟨by simp [hq], ?_, ?_⟩
      · simp only [Option.some.injEq]
        constructor
        · intro hs
          exact absurd hs (by decide)
        · intro hlt
          linarith
      · simp only [reduceCtorEq, false_iff, not_and, not_le]
        intro hge
        linarith
    · have h0 : ¬ 0 < q := by linarith
      rw [if_pos h5, if_neg h0]
      refine ⟨?_, by simp [show q < -5 by linarith], ?_⟩
      · simp only [Option.some.injEq]
        constructor
        · intro hs
          exact absurd hs (by decide)
        · intro hlt
          linarith
      · simp only [reduceCtorEq, false_iff, not_and, not_le]
        intro hge
        linarith
  · rw [if_neg h5]
    have habs := abs_le.mp (not_lt.mp h5)
    refine ⟨by simp [show ¬ 5 < q from by linarith [habs.2]], ?_, by simp [habs]⟩
    simp [show ¬ q < -5 from by linarith [habs.1]]

/-- **C3.**  The recommendation is `OVER` iff the edge exceeds 5, `UNDER`
iff it is below −5, and `null` otherwise — in particular `null` at an edge
of exactly 5 or −5. -/
theorem recommendation_thresholds (e : AntiRecencyEngine) (pid : ℤ) (pt : String)
    (line : ℚ) (vs : List ℚ) (t : ℤ) (p : WeightedProjection)
    (h : analyze_prop e pid pt line vs t = .ok p) :
    (p.recommended_play = some "OVER" ↔ 5 < p.edge_percentage)
    ∧ (p.recommended_play = some "UNDER" ↔ p.edge_percentage < -5)
    ∧ (p.recommended_play = none ↔ (-5 ≤ p.edge_percentage ∧ p.edge_percentage ≤ 5))
    ∧ ((p.edge_percentage = 5 ∨ p.edge_percentage = -5) → p.recommended_play = none) := by
  have hne := analyze_prop_ne_nil e pid pt line vs t p h
  rw [analyze_prop_eq e pid pt line vs t hne, Except.ok.injEq] at h
  subst h
  obtain ⟨h1, h2, h3⟩ := recommendedPlay_spec (edgePercent e line vs)
  refine ⟨h1, h2, h3, ?_⟩
  intro hcase
  apply h3.mpr
  rcases hcase with hq | hq
  · have hq2 : edgePercent e line vs = 5 := hq
    rw [hq2]
    norm_num
  · have hq2 : edgePercent e line vs = -5 := hq
    rw [hq2]
    norm_num

/-- Witness for C3 at the sample request (edge −50 → UNDER). -/
theorem recommendation_thresholds_witness :
    analyze_prop analysis_engine 1 "pts" 20 [10, 10, 10, 10, 10] 3 = .ok sampleProjection ∧
      (sampleProjection.recommended_play = some "UNDER" ↔
        sampleProjection.edge_percentage < -5) :=
  ⟨analyze_sample,
    (recommendation_thresholds analysis_engine 1 "pts" 20 [10, 10, 10, 10, 10] 3
      sampleProjection analyze_sample).2.1⟩

/-- The mean of a constant series is the constant. -/
theorem listMean_replicate (n : ℕ) (c : ℚ) (hn : n ≠ 0) :
    listMean (List.replicate n c) = c := by
  have hne : ((n : ℚ)) ≠ 0 := Nat.cast_ne_zero.mpr hn
  simp [listMean, List.sum_replicate, nsmul_eq_mul, mul_div_cancel_left₀ c hne]

/-- A tail slice of a constant series is a (nonempty, when both lengths
are positive) constant series. -/
theorem lastN_replicate (n k : ℕ) (c : ℚ) :
    lastN (List.replicate n c) k = List.replicate (n - (n - k)) c := by
  simp [lastN, List.drop_replicate]

/-- The sample variance of a constant series is 0 (defined for n ≥ 2). -/
theorem sampleVar_replicate (n : ℕ) (c : ℚ) :
    sampleVar (List.replicate n c) = if 2 ≤ n then some 0 else none := by
  unfold sampleVar
  rw [List.length_replicate]
  by_cases h2 : 2 ≤ n
  · rw [if_pos h2, if_pos h2]
    rw [listMean_replicate n c (by omega)]
    simp [List.map_replicate, List.sum_replicate]
  · rw [if_neg h2, if_neg h2]

/-- A constant series is never flagged as an outlier. -/
theorem isOutlier_replicate (n k : ℕ) (c : ℚ) :
    isOutlier (List.replicate n c) k = false := by
  unfold isOutlier
  rw [sampleVar_replicate]
  by_cases h2 : 2 ≤ n
  · simp [h2]
  · simp [h2]

/-- **C4.**  The final projection is the weighted sum of baseline,
adjusted-recent and trend signals plus a remainder weight on the baseline
that makes the applied coefficients sum to exactly 1; hence on a constant
series (never an outlier) the projection equals the constant. -/
theorem weighted_synthesis (e : AntiRecencyEngine) (pid : ℤ) (pt : String)
    (line : ℚ) (vs : List ℚ) (t : ℤ) (p : WeightedProjection)
    (hr : 0 < e.recent_games) (htr : 0 < e.trend_games)
    (h : analyze_prop e pid pt line vs t = .ok p) :
    p.final_projection =
      listMean vs * e.season_baseline_weight +
      adjustedRecent e vs * e.recent_form_weight +
      trendMean e vs * 0.05 +
      listMean vs * (1 - e.season_baseline_weight - e.recent_form_weight - 0.05)
    ∧ e.season_baseline_weight + e.recent_form_weight + 0.05 +
        (1 - e.season_baseline_weight - e.recent_form_weight - 0.05) = 1
    ∧ (∀ n c, vs = List.replicate n c →
        isOutlier vs e.recent_games = false ∧ p.final_projection = c) := by
  have hne := analyze_prop_ne_nil e pid pt line vs t p h
  rw [analyze_prop_eq e pid pt line vs t hne, Except.ok.injEq] at h
  subst h
  refine ⟨rfl, by ring, ?_⟩
  rintro n c rfl
  have hn : n ≠ 0 := by
    intro h0
    subst h0
    exact hne rfl
  have hmean := listMean_replicate n c hn
  have hout := isOutlier_replicate n e.recent_games c
  have hrec : recentMean (List.replicate n c) e.recent_games = c := by
    unfold recentMean
    rw [lastN_replicate]
    exact listMean_replicate _ c (by omega)
  have htrend : trendMean e (List.replicate n c) = c := by
    unfold trendMean
    rw [show lastN (List.replicate n c) e.trend_games
        = List.replicate (n - (n - e.trend_games)) c from lastN_replicate n _ c]
    exact listMean_replicate _ c (by omega)
  refine ⟨hout, ?_⟩
  show finalProjection e (List.replicate n c) = c
  unfold finalProjection adjustedRecent
  rw [hout, hmean, hrec, htrend]
  simp only [Bool.false_eq_true, if_false]
  ring

/-- Witness for C4 at the sample request: the constant series `[10]*5`
projects to exactly 10. -/
theorem weighted_synthesis_witness :
    0 < analysis_engine.recent_games ∧ 0 < analysis_engine.trend_games ∧
      (∀ n c, ([10, 10, 10, 10, 10] : List ℚ) = List.replicate n c →
        isOutlier [10, 10, 10, 10, 10] analysis_engine.recent_games = false ∧
          sampleProjection.final_projection = c) :=
  ⟨by decide, by decide,
    (weighted_synthesis analysis_engine 1 "pts" 20 [10, 10, 10, 10, 10] 3
      sampleProjection (by decide) (by decide) analyze_sample).2.2⟩

/-- **C5 (counterexample).**  On the empty series the engine does not fail
with `InsufficientDataError` — no such exception exists in the code; the
concrete call fails with numpy's `IndexError` instead. -/
theorem analyze_empty_not_insufficient :
    ¬ analyze_prop analysis_engine 1 "pts" 20 [] 3 =
        .error ErrKind.insufficientDataError := by
  simp [analyze_prop, calculate_baseline]

/-- **C5 (amended).**  Calling `analyze_prop` on an empty value series
fails — but with the `IndexError` that `np.percentile` raises on an empty
array inside `_calculate_baseline`, not with `InsufficientDataError`; no
projection is returned. -/
theorem analyze_empty_fails_with_indexError (e : AntiRecencyEngine) (pid : ℤ)
    (pt : String) (line : ℚ) (t : ℤ) :
    analyze_prop e pid pt line [] t = .error ErrKind.indexError := by
  simp [analyze_prop, calculate_baseline]

/-- **C6 (evaluation at the failing input).**  The baseline of the
single-element series `[7]` carries a NaN standard deviation (`none`): the
sample (n−1) estimator divides by zero for `n = 1`, so the stored value is
NaN rather than the 0 the spec prescribes; the call itself does not raise.
The last conjunct checks the estimator really divides by `n − 1`: for
`[4, 8]` it yields 8 (the population estimator would yield 4). -/
theorem stdDev_singleton_is_nan :
    calculate_baseline [7] = .ok ⟨7, 7, none, 7, 7, 1⟩
    ∧ stdDevOf [7] = none
    ∧ sampleVar [4, 8] = some 8 := by
  refine ⟨?_, ?_, ?_⟩
  · norm_num [calculate_baseline, listMean, listMedian, percentile, sortVals, nthD,
      List.insertionSort, List.orderedInsert, sampleVar]
  · simp [stdDevOf, sampleVar]
  · norm_num [sampleVar, listMean]

/-- `_check_retraining_needed` never touches the `predictions` table. -/
theorem checkRetrainingNeeded_predictions (sys : ContinuousLearningSystem)
    (db : LearningDB) (sport : String) :
    (checkRetrainingNeeded sys db sport).predictions = db.predictions := by
  unfold checkRetrainingNeeded
  cases latestDailyMetric db sport with
  | none => rfl
  | some m =>
    dsimp only
    split_ifs <;> simp [logLearningEvent]

/-- `_check_retraining_needed` never touches the `prediction_results`
table. -/
theorem checkRetrainingNeeded_results (sys : ContinuousLearningSystem)
    (db : LearningDB) (sport : String) :
    (checkRetrainingNeeded sys db sport).prediction_results = db.prediction_results := by
  unfold checkRetrainingNeeded
  cases latestDailyMetric db sport with
  | none => rfl
  | some m =>
    dsimp only
    split_ifs <;> simp [logLearningEvent]

/-- A verification attempt against a store that already holds a result for
the id fails with `AlreadyVerifiedError` and leaves the store unchanged. -/
theorem verify_result_already (sys : ContinuousLearningSystem) (db2 : LearningDB)
    (id : ℕ) (a : ℚ) (s : String) (pred : PredictionRow)
    (hfind : db2.predictions.find? (fun p => p.prediction_id == id) = some pred)
    (hany : db2.prediction_results.any (fun r => r.prediction_id == id) = true) :
    verify_result sys db2 id a s = (.error .alreadyVerified, db2) := by
  unfold verify_result
  rw [hfind]
  dsimp only
  rw [hany]
  simp

/-- **C7.**  Verifying a prediction twice: the first call succeeds, the
second fails with `AlreadyVerifiedError`, and the store after both calls is
the store after the first call alone (the failing call rolls back and
changes nothing). -/
theorem verify_twice_idempotent (sys : ContinuousLearningSystem) (db : LearningDB)
    (id : ℕ) (a1 a2 : ℚ) (s1 s2 : String) (pred : PredictionRow)
    (hfind : db.predictions.find? (fun p => p.prediction_id == id) = some pred)
    (hnone : db.prediction_results.any (fun r => r.prediction_id == id) = false) :
    ∃ row db1,
      verify_result sys db id a1 s1 = (.ok row, db1)
      ∧ verify_result sys db1 id a2 s2 = (.error .alreadyVerified, db1) := by
  unfold verify_result
  rw [hfind]
  dsimp only
  rw [hnone]
  simp only [Bool.false_eq_true, if_false]
  refine ⟨_, _, rfl, ?_⟩
  apply verify_result_already sys _ id a2 s2 pred
  · rw [checkRetrainingNeeded_predictions]
    simpa [logLearningEvent] using hfind
  · rw [checkRetrainingNeeded_results]
    simp [logLearningEvent, List.any_append]

/-- Witness for C7: a store with one unverified NBA prediction, verified
twice. -/
theorem verify_twice_idempotent_witness :
    dbSample.predictions.find? (fun p => p.prediction_id == 1) = some ⟨1, "NBA", 25⟩
    ∧ dbSample.prediction_results.any (fun r => r.prediction_id == 1) = false
    ∧ ∃ row db1,
        verify_result {} dbSample 1 30 "scraper" = (.ok row, db1)
        ∧ verify_result {} db1 1 31 "manual" = (.error .alreadyVerified, db1) :=
  ⟨by decide, by decide,
    verify_twice_idempotent {} dbSample 1 30 31 "scraper" "manual" ⟨1, "NBA", 25⟩
      (by decide) (by decide)⟩

/-- **C8.**  A single retraining evaluation emits exactly one trigger —
carrying the observed accuracy — iff the latest daily metric has at least
`min_predictions` predictions and accuracy below `accuracy_threshold`
(defaults 50 and 70); otherwise the store is unchanged. -/
theorem retraining_trigger_policy (sys : ContinuousLearningSystem) (db : LearningDB)
    (sport : String) (m : MetricRow)
    (h50 : sys.min_predictions = 50) (h70 : sys.accuracy_threshold = 70)
    (hm : latestDailyMetric db sport = some m) :
    ((50 ≤ m.total_predictions ∧ m.accuracy_rate < 70) →
      (checkRetrainingNeeded sys db sport).model_retraining_triggers =
        db.model_retraining_triggers ++
          [⟨db.next_trigger_id, sport,
            "Accuracy dropped to " ++ toString m.accuracy_rate ++ "%",
            m.accuracy_rate⟩])
    ∧ (¬ (50 ≤ m.total_predictions ∧ m.accuracy_rate < 70) →
        checkRetrainingNeeded sys db sport = db) := by
  constructor
  · rintro ⟨htot, hacc⟩
    unfold checkRetrainingNeeded
    rw [hm]
    dsimp only
    rw [if_pos (by rw [h50]; exact htot), if_pos (by rw [h70]; exact hacc)]
    simp [logLearningEvent]
  · intro hnot
    unfold checkRetrainingNeeded
    rw [hm]
    dsimp only
    by_cases htot : sys.min_predictions ≤ m.total_predictions
    · rw [if_pos htot]
      have hacc : ¬ m.accuracy_rate < sys.accuracy_threshold := by
        rw [h70]
        intro hlt
        exact hnot ⟨by rw [← h50]; exact htot, hlt⟩
      rw [if_neg hacc]
    · rw [if_neg htot]

/-- Witness for C8 at the spec's example metrics: 50 predictions at 69.9%
emit exactly one trigger; 49 predictions at 60% emit none. -/
theorem retraining_trigger_policy_witness :
    ({} : ContinuousLearningSystem).min_predictions = 50
    ∧ ({} : ContinuousLearningSystem).accuracy_threshold = 70
    ∧ latestDailyMetric dbTrigger "NBA" = some ⟨"NBA", "daily", 1, 50, 69.9⟩
    ∧ latestDailyMetric dbNoTrigger "NBA" = some ⟨"NBA", "daily", 1, 49, 60⟩
    ∧ ((50 ≤ 50 ∧ (69.9 : ℚ) < 70) →
        (checkRetrainingNeeded {} dbTrigger "NBA").model_retraining_triggers =
          dbTrigger.model_retraining_triggers ++
            [⟨dbTrigger.next_trigger_id, "NBA",
              "Accuracy dropped to " ++ toString (69.9 : ℚ) ++ "%", 69.9⟩])
    ∧ (¬ (50 ≤ 49 ∧ (60 : ℚ) < 70) →
        checkRetrainingNeeded {} dbNoTrigger "NBA" = dbNoTrigger) :=
  ⟨rfl, by norm_num,
    by simp [latestDailyMetric, dbTrigger, List.insertionSort, List.orderedInsert],
    by simp [latestDailyMetric, dbNoTrigger, List.insertionSort, List.orderedInsert],
    (retraining_trigger_policy {} dbTrigger "NBA" ⟨"NBA", "daily", 1, 50, 69.9⟩
      rfl (by norm_num)
      (by simp [latestDailyMetric, dbTrigger, List.insertionSort, List.orderedInsert])).1,
    (retraining_trigger_policy {} dbNoTrigger "NBA" ⟨"NBA", "daily", 1, 49, 60⟩
      rfl (by norm_num)
      (by simp [latestDailyMetric, dbNoTrigger, List.insertionSort, List.orderedInsert])).2⟩

/-- `analyze_prop` on an empty series yields numpy's `IndexError`
(helper shared by the batch results below). -/
theorem analyze_nil_eq (e : AntiRecencyEngine) (pid : ℤ) (pt : String)
    (line : ℚ) (t : ℤ) :
    analyze_prop e pid pt line [] t = .error ErrKind.indexError := by
  simp [analyze_prop, calculate_baseline]

/-- **C9 (counterexample).**  A batch of two items whose first item is
analyzable and whose second has an empty series: the whole request fails
with a single error payload — the first item's projection is not reported,
and no per-item error reporting happens. -/
theorem batch_abort_counterexample :
    (∃ r, analyze_prop analysis_engine goodProp.player_id goodProp.prop_type
        goodProp.prop_line goodProp.game_values goodProp.opponent_tier = .ok r)
    ∧ batch_analysis [goodProp, badProp] = .error (.analysisError .indexError) := by
  constructor
  · exact ⟨sampleProjection, analyze_sample⟩
  · simp [batch_analysis, runBatchItems, goodProp, badProp, analyze_sample, analyze_nil_eq]

/-- **C9 (amended).**  A failing item aborts the whole batch: if every item
of a nonempty batch is analyzable the endpoint returns one result per item
in order, but if any item's analysis raises, the endpoint returns a single
error payload and reports no per-item results. -/
theorem batch_aborts_or_reports_all (props : List PropRequest) (hne : props ≠ []) :
    ((∀ q ∈ props, ∃ r, analyze_prop analysis_engine q.player_id q.prop_type
        q.prop_line q.game_values q.opponent_tier = .ok r) →
      ∃ rs, batch_analysis props = .ok rs ∧ rs.length = props.length)
    ∧ ((∃ q ∈ props, ∃ er, analyze_prop analysis_engine q.player_id q.prop_type
        q.prop_line q.game_values q.opponent_tier = .error er) →
      ∃ er2, batch_analysis props = .error er2) := by
  have main : ∀ l : List PropRequest,
      ((∀ q ∈ l, ∃ r, analyze_prop analysis_engine q.player_id q.prop_type
          q.prop_line q.game_values q.opponent_tier = .ok r) →
        ∃ rs, runBatchItems l = .ok rs ∧ rs.length = l.length)
      ∧ ((∃ q ∈ l, ∃ er, analyze_prop analysis_engine q.player_id q.prop_type
          q.prop_line q.game_values q.opponent_tier = .error er) →
        ∃ er2, runBatchItems l = .error er2) := by
    intro l
    induction l with
    | nil =>
        constructor
        · intro _
          exact ⟨[], rfl, rfl⟩
        · rintro ⟨q, hq, -⟩
          simp at hq
    | cons a rest ih =>
        constructor
        · intro hall
          obtain ⟨r, hr⟩ := hall a (List.mem_cons_self a rest)
          obtain ⟨rs, hrs, hlen⟩ :=
            ih.1 (fun q hq => hall q (List.mem_cons_of_mem a hq))
          refine ⟨{ player_id := r.player_id, prop_type := r.prop_type,
                    final_projection := round2 r.final_projection,
                    edge_percentage := round2 r.edge_percentage,
                    confidence_level := r.confidence_level,
                    recommended_play := r.recommended_play } :: rs, ?_, by simp [hlen]⟩
          simp only [runBatchItems]
          rw [hr, hrs]
        · rintro ⟨q, hq, er, her⟩
          rcases List.mem_cons.mp hq with rfl | hq2
          · refine ⟨.analysisError er, ?_⟩
            simp only [runBatchItems]
            rw [her]
          · obtain ⟨er2, her2⟩ := ih.2 ⟨q, hq2, er, her⟩
            cases ha : analyze_prop analysis_engine a.player_id a.prop_type
                a.prop_line a.game_values a.opponent_tier with
            | error e0 =>
                refine ⟨.analysisError e0, ?_⟩
                simp only [runBatchItems]
                rw [ha]
            | ok r =>
                refine ⟨er2, ?_⟩
                simp only [runBatchItems]
                rw [ha, her2]
  have hmain := main props
  unfold batch_analysis
  rw [if_neg hne]
  exact hmain

/-- Witness for C9 (amended): the singleton all-good batch reports one
result. -/
theorem batch_aborts_or_reports_all_witness :
    ([goodProp] : List PropRequest) ≠ [] ∧
      ∃ rs, batch_analysis [goodProp] = .ok rs ∧ rs.length = ([goodProp] : List PropRequest).length :=
  ⟨by simp,
    (batch_aborts_or_reports_all [goodProp] (by simp)).1 (by
      intro q hq
      simp only [List.mem_singleton] at hq
      subst hq
      exact ⟨sampleProjection, analyze_sample⟩)⟩

/-- **C10.**  `analyze_prop` does not depend on `opponent_tier`: two runs
differing only in the tier return equal projections; and every returned
projection has `historical_matchup = None`, `defensive_tier = None`, and a
`weights_applied` dict with exactly the keys baseline, recent, trend. -/
theorem tier_independence_and_fixed_fields (e : AntiRecencyEngine) (pid : ℤ)
    (pt : String) (line : ℚ) (vs : List ℚ) :
    (∀ t1 t2 : ℤ, analyze_prop e pid pt line vs t1 = analyze_prop e pid pt line vs t2)
    ∧ (∀ (t : ℤ) (p : WeightedProjection), analyze_prop e pid pt line vs t = .ok p →
        p.historical_matchup = none ∧ p.defensive_tier = none ∧
        p.weights_applied.map Prod.fst = ["baseline", "recent", "trend"]) := by
  constructor
  · intro t1 t2
    rfl
  · intro t p h
    have hne := analyze_prop_ne_nil e pid pt line vs t p h
    rw [analyze_prop_eq e pid pt line vs t hne, Except.ok.injEq] at h
    subst h
    exact ⟨rfl, rfl, rfl⟩

/-- Witness for C10 at the sample request with tiers 2 and 4. -/
theorem tier_independence_witness :
    (analyze_prop analysis_engine 1 "pts" 20 [10, 10, 10, 10, 10] 2 =
      analyze_prop analysis_engine 1 "pts" 20 [10, 10, 10, 10, 10] 4)
    ∧ (sampleProjection.historical_matchup = none
        ∧ sampleProjection.defensive_tier = none
        ∧ sampleProjection.weights_applied.map Prod.fst = ["baseline", "recent", "trend"]) :=
  ⟨(tier_independence_and_fixed_fields analysis_engine 1 "pts" 20 [10, 10, 10, 10, 10]).1 2 4,
   (tier_independence_and_fixed_fields analysis_engine 1 "pts" 20 [10, 10, 10, 10, 10]).2 3
     sampleProjection analyze_sample⟩
